import Mathlib

/-!
A shallow embedding of the pdf-parser microservice
(src/services/pdf-parser/main.py).  The service is a FastAPI app with two
routes: GET /health returning a fixed payload, and POST /parse which
validates the uploaded filename, reads the body, hands the bytes to the
PyPDF2 extraction capability, joins the per-page texts with newlines and
assembles a metadata object.

The PDF-extraction capability (reading the request body, PdfReader and the
per-page extract_text calls) is modelled as a parameter: a function from
the uploaded bytes to either a raised exception (with its message) or a
list of per-page results together with the optional reader.metadata
dictionary.  A per-page result is an Option String because the Python
extract_text call may return None as well as a string; the Python
newline-join raises a TypeError on a None element, which the model
reflects.  The Python truthiness test on reader.metadata (None and the
empty dictionary are both falsy) is modelled explicitly.
-/

/-- A JSON-like value, sufficient for the response bodies of this service. -/
inductive Json where
  | null : Json
  | str : String → Json
  | num : Nat → Json
  | obj : List (String × Json) → Json
deriving Repr

/-- An uploaded file as the handler sees it: Starlette gives the handler an
optional filename string and the raw byte content. -/
structure Upload where
  filename : Option String
  content : List Nat
deriving DecidableEq, Repr

/-- Behaviour of the extraction capability on one uploaded byte stream:
either some exception is raised while reading the body or parsing the PDF
(carrying the exception text), or it yields the per-page results of
extract_text together with the optional reader.metadata dictionary,
modelled as an association list of slash-prefixed keys to values. -/
inductive ExtractResult where
  | failure (msg : String)
  | success (pages : List (Option String)) (metadata : Option (List (String × String)))
deriving DecidableEq, Repr

/-- Outcome of handling one request: either an HTTP response with a status
code and a JSON body, or an exception escaping the handler. -/
inductive Outcome where
  | response (status : Nat) (body : Json)
  | crash (msg : String)

/-- Python truthiness of reader.metadata: None and the empty dictionary
are falsy, a non-empty dictionary is truthy. -/
def metadataTruthy : Option (List (String × String)) → Bool
  | none => false
  | some d => !d.isEmpty

/-- Collect a list of optional strings; the result is none when any entry
is missing. -/
def allSome : List (Option String) → Option (List String)
  | [] => some []
  | none :: _ => none
  | some s :: rest => (allSome rest).map (fun l => s :: l)

/-- The Python newline join of the collected page texts: str.join raises a
TypeError when some list element is None instead of a string. -/
def joinPageTexts (parts : List (Option String)) : Except String String :=
  match allSome parts with
  | some strs => Except.ok (String.intercalate "\n" strs)
  | none => Except.error "sequence item: expected str instance, NoneType found"

/-- One field of the response metadata object: inside the truthy branch the
code assigns the result of reader.metadata.get on the given key, and the
field keeps its None default otherwise. -/
def mdField (md : Option (List (String × String))) (key : String) : Json :=
  if metadataTruthy md then
    match (md.getD []).lookup key with
    | some v => Json.str v
    | none => Json.null
  else Json.null

/-- The metadata object built by parse_pdf: the page count together with
the author, title and createdDate fields in source order. -/
def metadataJson (pageCount : Nat) (md : Option (List (String × String))) : Json :=
  Json.obj [("pages", Json.num pageCount),
            ("author", mdField md "/Author"),
            ("title", mdField md "/Title"),
            ("createdDate", mdField md "/CreationDate")]

/-- Python str.lower on the filename, character by character; the
filenames of interest are ASCII. -/
def pyLower (s : String) : String := String.mk (s.data.map Char.toLower)

/-- Python str.endswith on the filename: the suffix check of the handler. -/
def pyEndsWith (s suffix : String) : Bool := suffix.data.isSuffixOf s.data

/-- The handler of POST /parse, translated statement by statement from
parse_pdf in main.py.  A missing filename makes the attribute access
file.filename.lower raise an AttributeError before the try block, so the
handler crashes instead of producing a designed response.  The filename
check, the try block around read and extraction, the newline join, the
metadata assembly and the two HTTPException branches follow the source.
The informational logging calls are pure no-ops here; note that the
first-page log guards page_text with a truthiness test, so a None page
cannot raise before the join does. -/
def parse_pdf (extract : List Nat → ExtractResult) (file : Upload) : Outcome :=
  match file.filename with
  | none => Outcome.crash "AttributeError: NoneType object has no attribute lower"
  | some fname =>
    if !(pyEndsWith (pyLower fname) ".pdf") then
      Outcome.response 400 (Json.obj [("detail", Json.str "File must be a PDF")])
    else
      match extract file.content with
      | ExtractResult.failure msg =>
          Outcome.response 500
            (Json.obj [("detail", Json.str ("PDF parsing failed: " ++ msg))])
      | ExtractResult.success pages md =>
          match joinPageTexts pages with
          | Except.error msg =>
              Outcome.response 500
                (Json.obj [("detail", Json.str ("PDF parsing failed: " ++ msg))])
          | Except.ok fullText =>
              Outcome.response 200
                (Json.obj [("text", Json.str fullText),
                           ("metadata", metadataJson pages.length md)])

/-- The handler of GET /health from main.py: a fixed success payload. -/
def health_check : Outcome :=
  Outcome.response 200
    (Json.obj [("status", Json.str "healthy"), ("service", Json.str "pdf-parser")])

/-- A request to the service: one of the two routes. -/
inductive Request where
  | health : Request
  | parse (file : Upload) : Request
deriving DecidableEq, Repr

/-- FastAPI dispatch of one request to its handler.  The module holds no
mutable state, so a handler sees nothing but its own request and the
extraction capability. -/
def handleRequest (extract : List Nat → ExtractResult) : Request → Outcome
  | Request.health => health_check
  | Request.parse file => parse_pdf extract file

/-- A service run: handle a sequence of requests in order.  No state is
threaded from one request to the next, mirroring the absence of module
globals other than the write-only logger in main.py. -/
def runService (extract : List Nat → ExtractResult) (reqs : List Request) : List Outcome :=
  reqs.map (handleRequest extract)

/-- Reading of the metadata fields in the words of the spec: the value of
the document-metadata key when the extraction capability exposes a
dictionary containing it, and nothing when the key is absent or no
dictionary is exposed. -/
def mdGet (md : Option (List (String × String))) (key : String) : Option String :=
  match md with
  | none => none
  | some d => d.lookup key

/-- An optional string as a JSON value, null when absent. -/
def optStrJson : Option String → Json
  | some s => Json.str s
  | none => Json.null

theorem allSome_map_some (pages : List String) : allSome (pages.map some) = some pages := by
  induction pages with
  | nil => rfl
  | cons p ps ih => simp [allSome, ih]

theorem mdField_eq_mdGet (md : Option (List (String × String))) (key : String) :
    mdField md key = optStrJson (mdGet md key) := by
  match md with
  | none => rfl
  | some [] => rfl
  | some (p :: rest) =>
      simp only [mdField, mdGet, metadataTruthy, Option.getD]
      cases h : (p :: rest).lookup key <;> simp [h, optStrJson, List.isEmpty]

/-- C1: for an upload whose filename ends case-insensitively in .pdf, when
extraction yields a string for every page, the 200 response of POST /parse
carries a text field equal to the per-page strings joined by a single
newline per page boundary, in page order, with empty-string pages kept in
the join. -/
theorem parse_text_is_newline_join (extract : List Nat → ExtractResult)
    (file : Upload) (fname : String) (pages : List String)
    (md : Option (List (String × String)))
    (hf : file.filename = some fname)
    (hpdf : pyEndsWith (pyLower fname) ".pdf" = true)
    (hx : extract file.content = ExtractResult.success (pages.map some) md) :
    parse_pdf extract file =
      Outcome.response 200
        (Json.obj [("text", Json.str (String.intercalate "\n" pages)),
                   ("metadata", metadataJson pages.length md)]) := by
  have hj : joinPageTexts (pages.map some) =
      Except.ok (String.intercalate "\n" pages) := by
    simp [joinPageTexts, allSome_map_some]
  simp [parse_pdf, hf, hpdf, hx, hj]

def extractW1 : List Nat → ExtractResult := fun _ =>
  ExtractResult.success [some "alpha", some ""] none

def uploadW1 : Upload := { filename := some "a.pdf", content := [3] }

theorem parse_text_is_newline_join_witness :
    parse_pdf extractW1 uploadW1 =
      Outcome.response 200
        (Json.obj [("text", Json.str (String.intercalate "\n" ["alpha", ""])),
                   ("metadata", metadataJson 2 none)]) :=
  parse_text_is_newline_join extractW1 uploadW1 "a.pdf" ["alpha", ""] none
    rfl (by decide) rfl

/-- C2: for any valid PDF accepted by POST /parse, the pages field of the
200 response metadata equals exactly the length of the page list iterated
during text extraction. -/
theorem parse_pages_exact_count (extract : List Nat → ExtractResult)
    (file : Upload) (fname : String) (pages : List (Option String))
    (md : Option (List (String × String))) (t : String)
    (hf : file.filename = some fname)
    (hpdf : pyEndsWith (pyLower fname) ".pdf" = true)
    (hx : extract file.content = ExtractResult.success pages md)
    (hj : joinPageTexts pages = Except.ok t) :
    parse_pdf extract file =
      Outcome.response 200
        (Json.obj [("text", Json.str t),
                   ("metadata", Json.obj
                     [("pages", Json.num pages.length),
                      ("author", mdField md "/Author"),
                      ("title", mdField md "/Title"),
                      ("createdDate", mdField md "/CreationDate")])]) := by
  simp [parse_pdf, hf, hpdf, hx, hj, metadataJson]

def extractW2 : List Nat → ExtractResult := fun _ =>
  ExtractResult.success [some "p1", some "p2", some "p3"] none

def uploadW2 : Upload := { filename := some "b.pdf", content := [1] }

theorem parse_pages_exact_count_witness :
    parse_pdf extractW2 uploadW2 =
      Outcome.response 200
        (Json.obj [("text", Json.str "p1\np2\np3"),
                   ("metadata", Json.obj
                     [("pages", Json.num 3),
                      ("author", mdField none "/Author"),
                      ("title", mdField none "/Title"),
                      ("createdDate", mdField none "/CreationDate")])]) :=
  parse_pages_exact_count extractW2 uploadW2 "b.pdf"
    [some "p1", some "p2", some "p3"] none "p1\np2\np3" rfl (by decide) rfl rfl

/-- C3: for every upload carrying a filename that does not end
case-insensitively in .pdf, POST /parse returns 400 with a detail message,
and the result is the same for every extraction capability, so extraction
is never invoked on this path. -/
theorem parse_rejects_non_pdf (extract : List Nat → ExtractResult)
    (file : Upload) (fname : String)
    (hf : file.filename = some fname)
    (hnot : pyEndsWith (pyLower fname) ".pdf" = false) :
    parse_pdf extract file =
      Outcome.response 400 (Json.obj [("detail", Json.str "File must be a PDF")]) := by
  simp [parse_pdf, hf, hnot]

def uploadW3 : Upload := { filename := some "notes.txt", content := [0] }

theorem parse_rejects_non_pdf_witness :
    parse_pdf (fun _ => ExtractResult.failure "never invoked") uploadW3 =
      Outcome.response 400 (Json.obj [("detail", Json.str "File must be a PDF")]) :=
  parse_rejects_non_pdf (fun _ => ExtractResult.failure "never invoked")
    uploadW3 "notes.txt" rfl (by decide)

/-- C4: for an upload with a .pdf-suffixed filename, when any exception is
raised while reading the body or extracting text and metadata, POST /parse
returns 500 with a detail message embedding the original exception text,
and the body holds no text or metadata payload. -/
theorem parse_extraction_failure_500 (extract : List Nat → ExtractResult)
    (file : Upload) (fname : String) (msg : String)
    (hf : file.filename = some fname)
    (hpdf : pyEndsWith (pyLower fname) ".pdf" = true)
    (hx : extract file.content = ExtractResult.failure msg) :
    parse_pdf extract file =
      Outcome.response 500
        (Json.obj [("detail", Json.str ("PDF parsing failed: " ++ msg))]) := by
  simp [parse_pdf, hf, hpdf, hx]

def uploadW4 : Upload := { filename := some "broken.pdf", content := [9, 9] }

theorem parse_extraction_failure_500_witness :
    parse_pdf (fun _ => ExtractResult.failure "EOF marker not found") uploadW4 =
      Outcome.response 500
        (Json.obj [("detail",
          Json.str ("PDF parsing failed: " ++ "EOF marker not found"))]) :=
  parse_extraction_failure_500 (fun _ => ExtractResult.failure "EOF marker not found")
    uploadW4 "broken.pdf" "EOF marker not found" rfl (by decide) rfl

/-- C5: in every 200 response of POST /parse the author, title and
createdDate metadata fields are present, each equal to the value of the
document-metadata key /Author, /Title or /CreationDate when the extraction
capability exposes a metadata dictionary containing that key, and null
when the key is absent or no dictionary is exposed. -/
theorem parse_metadata_fields_from_dict (extract : List Nat → ExtractResult)
    (file : Upload) (fname : String) (pages : List (Option String))
    (md : Option (List (String × String))) (t : String)
    (hf : file.filename = some fname)
    (hpdf : pyEndsWith (pyLower fname) ".pdf" = true)
    (hx : extract file.content = ExtractResult.success pages md)
    (hj : joinPageTexts pages = Except.ok t) :
    parse_pdf extract file =
      Outcome.response 200
        (Json.obj [("text", Json.str t),
                   ("metadata", Json.obj
                     [("pages", Json.num pages.length),
                      ("author", optStrJson (mdGet md "/Author")),
                      ("title", optStrJson (mdGet md "/Title")),
                      ("createdDate", optStrJson (mdGet md "/CreationDate"))])]) := by
  simp [parse_pdf, hf, hpdf, hx, hj, metadataJson, mdField_eq_mdGet]

def extractW5 : List Nat → ExtractResult := fun _ =>
  ExtractResult.success [some "body"] (some [("/Title", "Report")])

def uploadW5 : Upload := { filename := some "c.pdf", content := [5] }

theorem parse_metadata_fields_from_dict_witness :
    parse_pdf extractW5 uploadW5 =
      Outcome.response 200
        (Json.obj [("text", Json.str "body"),
                   ("metadata", Json.obj
                     [("pages", Json.num 1),
                      ("author", optStrJson (mdGet (some [("/Title", "Report")]) "/Author")),
                      ("title", optStrJson (mdGet (some [("/Title", "Report")]) "/Title")),
                      ("createdDate", optStrJson (mdGet (some [("/Title", "Report")]) "/CreationDate"))])]) :=
  parse_metadata_fields_from_dict extractW5 uploadW5 "c.pdf" [some "body"]
    (some [("/Title", "Report")]) "body" rfl (by decide) rfl rfl

/-- C6: every GET /health request, at any position of any request sequence
and regardless of the requests handled before it, is answered with status
200 and exactly the fixed healthy payload; the handler is pure, so it has
no side effect on any state. -/
theorem health_always_healthy (extract : List Nat → ExtractResult)
    (reqs : List Request) (i : Nat)
    (h : reqs.get? i = some Request.health) :
    (runService extract reqs).get? i =
      some (Outcome.response 200
        (Json.obj [("status", Json.str "healthy"),
                   ("service", Json.str "pdf-parser")])) := by
  rw [List.get?_eq_getElem?] at h
  simp [runService, List.getElem?_map, h, handleRequest, health_check]

theorem health_always_healthy_witness :
    (runService (fun _ => ExtractResult.failure "down")
        [Request.parse { filename := some "x.pdf", content := [] },
         Request.health]).get? 1 =
      some (Outcome.response 200
        (Json.obj [("status", Json.str "healthy"),
                   ("service", Json.str "pdf-parser")])) :=
  health_always_healthy (fun _ => ExtractResult.failure "down")
    [Request.parse { filename := some "x.pdf", content := [] }, Request.health] 1 rfl

/-- C7: the upload named report.PDF, whose content a three-page extraction
turns into two non-empty newline-free page texts and one empty page text,
is accepted despite the mixed-case suffix and answered with 200, a pages
field equal to 3 and a text holding exactly two newline characters. -/
theorem parse_report_mixed_case :
    parse_pdf (fun _ => ExtractResult.success [some "alpha", some "", some "beta"] none)
        { filename := some "report.PDF", content := [37, 80, 68, 70] } =
      Outcome.response 200
        (Json.obj [("text", Json.str "alpha\n\nbeta"),
                   ("metadata", metadataJson 3 none)]) ∧
    "alpha\n\nbeta".toList.count '\n' = 2 := by
  exact ⟨rfl, by decide⟩

/-- C8: the parse handler is deterministic and free of cross-request
state: two POST /parse requests carrying the same upload, at any positions
of any two request sequences handled with the same extraction capability,
receive identical responses, whatever was handled before either of them. -/
theorem parse_no_cross_request_state (extract : List Nat → ExtractResult)
    (reqs1 reqs2 : List Request) (i j : Nat) (file : Upload)
    (h1 : reqs1.get? i = some (Request.parse file))
    (h2 : reqs2.get? j = some (Request.parse file)) :
    (runService extract reqs1).get? i = (runService extract reqs2).get? j := by
  rw [List.get?_eq_getElem?] at h1 h2
  simp [runService, List.getElem?_map, h1, h2]

def extractW8 : List Nat → ExtractResult := fun _ =>
  ExtractResult.success [some "w"] none

def uploadW8 : Upload := { filename := some "w.pdf", content := [7] }

theorem parse_no_cross_request_state_witness :
    (runService extractW8
        [Request.health, Request.parse uploadW8]).get? 1 =
      (runService extractW8 [Request.parse uploadW8]).get? 0 :=
  parse_no_cross_request_state extractW8
    [Request.health, Request.parse uploadW8] [Request.parse uploadW8]
    1 0 uploadW8 rfl rfl

/-- C9: an upload with a .pdf filename whose structurally valid content
extracts to a None page text alongside a string page is answered with a
500 error, because the newline join raises on the non-string element,
rather than a 200 treating the page as empty. -/
theorem parse_none_page_500 :
    parse_pdf (fun _ => ExtractResult.success [some "alpha", none] none)
        { filename := some "scan.pdf", content := [37, 80, 68, 70] } =
      Outcome.response 500
        (Json.obj [("detail", Json.str
          ("PDF parsing failed: " ++
            "sequence item: expected str instance, NoneType found"))]) := rfl

/-- C10: when the upload carries no filename, the suffix validation raises
before the try block, so the handler crashes and produces neither the
designed 400 response nor the designed 500 response, for every extraction
capability and every content. -/
theorem parse_missing_filename_crashes (extract : List Nat → ExtractResult)
    (content : List Nat) :
    parse_pdf extract { filename := none, content := content } =
      Outcome.crash "AttributeError: NoneType object has no attribute lower" ∧
    ∀ status body,
      parse_pdf extract { filename := none, content := content } ≠
        Outcome.response status body := by
  refine ⟨rfl, ?_⟩
  intro status body h
  exact Outcome.noConfusion h
